import Mathlib

/-!
Shallow embedding of two OpenTelemetry instrumentation adapters:

* `instrumentation/net/http/otelhttp/metrics.go` — an HTTP client transport
  decorator that records one duration sample per outbound call, guarded by a
  one-shot (`sync.Once`) finalizer on a per-call `tracker` that wraps the
  response body.
* `instrumentation/github.com/emicklei/go-restful/restful.go` — a go-restful
  filter that starts a server span around the downstream chain and annotates
  it with status-derived attributes.

External collaborators (the `semconv`/`standard` attribute constructors, the
metric recorder, the tracer and propagators) are modelled symbolically: an
attribute bundle is a constructor remembering the exact input it was derived
from, and the recorder is an event log, so that "records once with labels L"
is a statement about the log.
-/

namespace OtelContrib

/-- An outbound HTTP request as the adapters see it: an opaque value whose
identity the symbolic attribute constructors remember. -/
structure Request where
  method : String
  url : String
deriving DecidableEq, Repr

/-- An opaque Go `error` value. -/
structure GoError where
  msg : String
deriving DecidableEq, Repr

/-- Symbolic attribute bundles, each remembering which external constructor
produced it and from which input (the constructors live in external
`semconv`/`standard` packages, so they are modelled as opaque tags). -/
inductive Label where
  | clientAttrs (req : Request)
  | statusAttrs (code : Nat)
  | netAttrs (transport : String) (req : Request)
  | endUserAttrs (req : Request)
  | serverAttrs (service route : String) (req : Request)
deriving DecidableEq, Repr

/-- `semconv.HTTPClientAttributesFromHTTPRequest`, modelled symbolically. -/
def HTTPClientAttributesFromHTTPRequest (req : Request) : List Label :=
  [Label.clientAttrs req]

/-- `semconv.HTTPAttributesFromHTTPStatusCode` (same function in the
`standard` package), modelled symbolically. -/
def HTTPAttributesFromHTTPStatusCode (code : Nat) : List Label :=
  [Label.statusAttrs code]

/-- Outcome of one `Read` on the underlying body: `none` is a nil error,
`eof` is `io.EOF`, `other c` is any other non-nil error. -/
inductive ReadErr where
  | eof
  | other (code : Nat)
deriving DecidableEq, Repr

/-- Observable side effects of the tracker on its collaborators, in order:
a `Record` call on the duration recorder (with its labels), and a `Close`
delegated to the underlying body. -/
inductive Event where
  | record (labels : List Label)
  | bodyClose
deriving DecidableEq, Repr

/-- State of one `tracker` value together with the underlying response body
it observes.  `endFired` is the `sync.Once` state; `script` is the sequence
of results the underlying body's `Read` will return (an empty script keeps
returning `(0, io.EOF)`, like a drained Go body); `events` is the log of
side effects; `written` logs bytes forwarded to the underlying body's
`Write` (only reachable when the body is an `io.Writer`). -/
structure CallState where
  endFired : Bool
  labels : List Label
  script : List (Nat × Option ReadErr)
  closeErr : Option GoError
  events : List Event
  written : List Nat
deriving DecidableEq, Repr

/-- `tracker.end`: under the `sync.Once` guard, record one duration sample
with the tracker's labels. -/
def trackerEnd (st : CallState) : CallState :=
  if st.endFired then st
  else { st with endFired := true, events := st.events ++ [Event.record st.labels] }

/-- One `Read` of the underlying body: pop the next scripted result. -/
def bodyRead (st : CallState) : (Nat × Option ReadErr) × CallState :=
  match st.script with
  | [] => ((0, some ReadErr.eof), st)
  | r :: rest => (r, { st with script := rest })

/-- `tracker.Read`: delegate to the underlying body; on a nil error return
`(n, nil)`; on `io.EOF` call `end` first; always return the underlying
result unchanged. -/
def trackerRead (st : CallState) : (Nat × Option ReadErr) × CallState :=
  let res := bodyRead st
  match res.1.2 with
  | none => ((res.1.1, none), res.2)
  | some ReadErr.eof => ((res.1.1, some ReadErr.eof), trackerEnd res.2)
  | some (ReadErr.other c) => ((res.1.1, some (ReadErr.other c)), res.2)

/-- `tracker.Close`: call `end`, then delegate `Close` to the underlying
body and return its result. -/
def trackerClose (st : CallState) : Option GoError × CallState :=
  let st' := trackerEnd st
  (st.closeErr, { st' with events := st'.events ++ [Event.bodyClose] })

/-- A value implementing `io.ReadCloser`, with its runtime capability of also
implementing `io.Writer` (what the `body.(io.Writer)` type assertion sees). -/
structure RCVal where
  objId : Nat
  isWriter : Bool
deriving DecidableEq, Repr

/-- The `tracker` as an `io.ReadCloser` value: it has no `Write` method. -/
def trackerRC : RCVal :=
  { objId := 0, isWriter := false }

/-- Result shape of wrappedBodyIO: either the wrapper alone, or the
anonymous struct composing the wrapper's `ReadCloser` with the original
body's `Writer`. -/
inductive WrappedBody where
  | plain (rc : RCVal)
  | composed (rc : RCVal) (wr : RCVal)
deriving DecidableEq, Repr

/-- wrappedBodyIO: if the body is an `io.Writer`, return the composed
struct `{wrapper, body}`; otherwise return the wrapper alone. -/
def wrappedBodyIO (wrapper body : RCVal) : WrappedBody :=
  if body.isWriter then WrappedBody.composed wrapper body
  else WrappedBody.plain wrapper

/-- Whether a wrapped body satisfies a `.(io.Writer)` type assertion. -/
def WrappedBody.supportsWriter : WrappedBody → Bool
  | WrappedBody.plain rc => rc.isWriter
  | WrappedBody.composed _ _ => true

/-- `Write` on the wrapped body: the composed struct forwards it straight to
the original body's `Writer` (logging the byte count in `written`); the
plain wrapper (the tracker) has no `Write` method at all. -/
def wrappedWrite : WrappedBody → CallState → Nat → Option (CallState × Nat)
  | WrappedBody.composed _ _, st, n => some ({ st with written := st.written ++ [n] }, n)
  | WrappedBody.plain _, _, _ => none

/-- What the wrapped base transport returns: the `http.RoundTripper`
contract, either a non-nil error or a response. -/
structure BodySpec where
  objId : Nat
  isWriter : Bool
  script : List (Nat × Option ReadErr)
  closeErr : Option GoError
deriving DecidableEq, Repr

structure BaseResponse where
  statusCode : Nat
  body : Option BodySpec
deriving DecidableEq, Repr

inductive BaseResult where
  | failure (e : GoError)
  | success (resp : BaseResponse)
deriving DecidableEq, Repr

/-- What `instrumentedTransport.RoundTrip` hands back: the returned error,
the returned response's status (if a response was returned), the wrapped
body put into `resp.Body` (if the response had a body), and the tracker /
recorder state at the moment `RoundTrip` returns. -/
structure RTResult where
  err : Option GoError
  respStatus : Option Nat
  wrapped : Option WrappedBody
  state : CallState
deriving DecidableEq, Repr

/-- Fresh tracker state at the top of `RoundTrip`. -/
def initTracker : CallState :=
  { endFired := false, labels := [], script := [], closeErr := none,
    events := [], written := [] }

/-- `instrumentedTransport.RoundTrip`: compute client attributes, make a
tracker, delegate to the base transport, then (error → 500 attributes and
`end`; nil body → status attributes and `end`; body → status attributes and
wrap the body, deferring finalization). -/
def roundTrip (req : Request) (base : BaseResult) : RTResult :=
  let labels := HTTPClientAttributesFromHTTPRequest req
  match base with
  | BaseResult.failure e =>
      let t := { initTracker with
                  labels := labels ++ HTTPAttributesFromHTTPStatusCode 500 }
      { err := some e, respStatus := none, wrapped := none, state := trackerEnd t }
  | BaseResult.success resp =>
      let t := { initTracker with
                  labels := labels ++ HTTPAttributesFromHTTPStatusCode resp.statusCode }
      match resp.body with
      | none =>
          { err := none, respStatus := some resp.statusCode, wrapped := none,
            state := trackerEnd t }
      | some bs =>
          let t := { t with script := bs.script, closeErr := bs.closeErr }
          { err := none, respStatus := some resp.statusCode,
            wrapped := some ( wrappedBodyIO trackerRC
                                { objId := bs.objId, isWriter := bs.isWriter }),
            state := t }

/-- An operation the caller can perform on the returned response body. -/
inductive Op where
  | read
  | close
deriving DecidableEq, Repr

def stepOp (st : CallState) (op : Op) : CallState :=
  match op with
  | Op.read => (trackerRead st).2
  | Op.close => (trackerClose st).2

def runOps (st : CallState) (ops : List Op) : CallState :=
  ops.foldl stepOp st

def Event.isRecord : Event → Bool
  | Event.record _ => true
  | Event.bodyClose => false

def Event.isBodyClose : Event → Bool
  | Event.record _ => false
  | Event.bodyClose => true

/-- How many duration samples the recorder has received. -/
def countRecords (evs : List Event) : Nat :=
  (evs.filter Event.isRecord).length

/-- How many `Close` calls were delegated to the underlying body. -/
def countBodyCloses (evs : List Event) : Nat :=
  (evs.filter Event.isBodyClose).length

/-- The one-shot invariant tying the recorder log to the `sync.Once` state:
one sample has been recorded exactly when the guard has fired. -/
def trackerInv (st : CallState) : Prop :=
  countRecords st.events = (if st.endFired then 1 else 0)

theorem countRecords_append (a b : List Event) :
    countRecords (a ++ b) = countRecords a + countRecords b := by
  simp [countRecords, List.filter_append]

theorem trackerEnd_endFired (st : CallState) : (trackerEnd st).endFired = true := by
  unfold trackerEnd
  cases hf : st.endFired <;> simp [hf]

theorem trackerEnd_idem (st : CallState) :
    trackerEnd (trackerEnd st) = trackerEnd st := by
  unfold trackerEnd
  cases hf : st.endFired <;> simp [hf]

theorem trackerEnd_inv {st : CallState} (h : trackerInv st) :
    trackerInv (trackerEnd st) := by
  unfold trackerInv at h ⊢
  unfold trackerEnd
  cases hf : st.endFired
  · simp [hf] at h
    simp only [countRecords] at h
    simp [hf, countRecords_append, countRecords, Event.isRecord, h]
  · simpa [hf] using h

theorem bodyRead_endFired (st : CallState) : (bodyRead st).2.endFired = st.endFired := by
  unfold bodyRead
  cases hs : st.script <;> simp [hs]

theorem bodyRead_events (st : CallState) : (bodyRead st).2.events = st.events := by
  unfold bodyRead
  cases hs : st.script <;> simp [hs]

/-- Characterization of `tracker.Read`: it returns exactly what the
underlying body's `Read` returned, and the state is finalized via
`trackerEnd` precisely when that result's error is `io.EOF`. -/
theorem trackerRead_spec (st : CallState) :
    (trackerRead st).1 = (bodyRead st).1 ∧
    (trackerRead st).2 =
      (if (bodyRead st).1.2 = some ReadErr.eof then trackerEnd (bodyRead st).2
       else (bodyRead st).2) := by
  obtain ⟨ef, ls, script, ce, evs, wr⟩ := st
  rcases script with _ | ⟨⟨n, err⟩, rest⟩
  · simp [trackerRead, bodyRead]
  · rcases err with _ | e
    · simp [trackerRead, bodyRead]
    · rcases e with _ | c <;> simp [trackerRead, bodyRead]

theorem trackerRead_inv {st : CallState} (h : trackerInv st) :
    trackerInv (trackerRead st).2 := by
  have hb : trackerInv (bodyRead st).2 := by
    unfold trackerInv
    rw [bodyRead_events, bodyRead_endFired]
    exact h
  rw [(trackerRead_spec st).2]
  by_cases he : (bodyRead st).1.2 = some ReadErr.eof
  · rw [if_pos he]
    exact trackerEnd_inv hb
  · rw [if_neg he]
    exact hb

theorem trackerClose_endFired (st : CallState) :
    (trackerClose st).2.endFired = true := by
  simp [trackerClose, trackerEnd_endFired]

theorem trackerClose_inv {st : CallState} (h : trackerInv st) :
    trackerInv (trackerClose st).2 := by
  have h2 := trackerEnd_inv h
  unfold trackerInv at h2 ⊢
  simp only [trackerEnd_endFired, if_true] at h2
  simp only [countRecords] at h2
  simp [trackerClose, countRecords_append, trackerEnd_endFired, countRecords,
    Event.isRecord, h2]

theorem stepOp_inv {st : CallState} (op : Op) (h : trackerInv st) :
    trackerInv (stepOp st op) := by
  cases op
  · exact trackerRead_inv h
  · exact trackerClose_inv h

theorem runOps_inv {st : CallState} (ops : List Op) (h : trackerInv st) :
    trackerInv (runOps st ops) := by
  induction ops generalizing st with
  | nil => exact h
  | cons op rest ih =>
      show trackerInv (List.foldl stepOp (stepOp st op) rest)
      exact ih (stepOp_inv op h)

theorem stepOp_endFired_mono {st : CallState} (op : Op) (h : st.endFired = true) :
    (stepOp st op).endFired = true := by
  cases op
  · show (trackerRead st).2.endFired = true
    rw [(trackerRead_spec st).2]
    by_cases he : (bodyRead st).1.2 = some ReadErr.eof
    · rw [if_pos he]
      exact trackerEnd_endFired _
    · rw [if_neg he, bodyRead_endFired]
      exact h
  · exact trackerClose_endFired st

theorem runOps_endFired_mono {st : CallState} (ops : List Op) (h : st.endFired = true) :
    (runOps st ops).endFired = true := by
  induction ops generalizing st with
  | nil => exact h
  | cons op rest ih =>
      show (List.foldl stepOp (stepOp st op) rest).endFired = true
      exact ih (stepOp_endFired_mono op h)

theorem runOps_close_endFired {st : CallState} {ops : List Op}
    (h : Op.close ∈ ops) : (runOps st ops).endFired = true := by
  induction ops generalizing st with
  | nil => cases h
  | cons op rest ih =>
      show (List.foldl stepOp (stepOp st op) rest).endFired = true
      rcases List.mem_cons.mp h with h1 | h2
      · have : (stepOp st op).endFired = true := by
          rw [← h1]
          exact trackerClose_endFired st
        exact runOps_endFired_mono rest this
      · exact ih h2

theorem roundTrip_state_inv (req : Request) (base : BaseResult) :
    trackerInv (roundTrip req base).state := by
  rcases base with e | ⟨status, body⟩
  · exact trackerEnd_inv (by simp [trackerInv, initTracker, countRecords])
  · rcases body with _ | bs
    · exact trackerEnd_inv (by simp [trackerInv, initTracker, countRecords])
    · simp [roundTrip, trackerInv, initTracker, countRecords]

theorem roundTrip_wrapped_none_endFired (req : Request) (base : BaseResult)
    (h : (roundTrip req base).wrapped = none) :
    (roundTrip req base).state.endFired = true := by
  rcases base with e | ⟨status, body⟩
  · exact trackerEnd_endFired _
  · rcases body with _ | bs
    · exact trackerEnd_endFired _
    · simp [roundTrip] at h

theorem roundTrip_wrapped_some_endFired (req : Request) (base : BaseResult)
    (h : (roundTrip req base).wrapped ≠ none) :
    (roundTrip req base).state.endFired = false := by
  rcases base with e | ⟨status, body⟩
  · exact absurd rfl h
  · rcases body with _ | bs
    · exact absurd rfl h
    · rfl

/-- Whether, in running the operation sequence from this state, some `Read`
returns the end-of-stream signal `io.EOF` from the underlying body. -/
def readHitsEOF : CallState → List Op → Bool
  | _, [] => false
  | st, Op.read :: rest =>
      if (bodyRead st).1.2 = some ReadErr.eof then true
      else readHitsEOF (stepOp st Op.read) rest
  | st, Op.close :: rest => readHitsEOF (stepOp st Op.close) rest

theorem readHitsEOF_endFired {st : CallState} {ops : List Op}
    (h : readHitsEOF st ops = true) : (runOps st ops).endFired = true := by
  induction ops generalizing st with
  | nil => simp [readHitsEOF] at h
  | cons op rest ih =>
      cases op with
      | read =>
          simp only [readHitsEOF] at h
          by_cases heof : (bodyRead st).1.2 = some ReadErr.eof
          · have hstep : (stepOp st Op.read).endFired = true := by
              show (trackerRead st).2.endFired = true
              rw [(trackerRead_spec st).2, if_pos heof]
              exact trackerEnd_endFired _
            show (List.foldl stepOp (stepOp st Op.read) rest).endFired = true
            exact runOps_endFired_mono rest hstep
          · rw [if_neg heof] at h
            show (List.foldl stepOp (stepOp st Op.read) rest).endFired = true
            exact ih h
      | close =>
          simp only [readHitsEOF] at h
          show (List.foldl stepOp (stepOp st Op.close) rest).endFired = true
          exact ih h

theorem no_close_no_eof_endFired {st : CallState} {ops : List Op}
    (hf : st.endFired = false) (hc : Op.close ∉ ops)
    (he : readHitsEOF st ops = false) : (runOps st ops).endFired = false := by
  induction ops generalizing st with
  | nil => exact hf
  | cons op rest ih =>
      cases op with
      | read =>
          simp only [readHitsEOF] at he
          by_cases heof : (bodyRead st).1.2 = some ReadErr.eof
          · rw [if_pos heof] at he
            simp at he
          · rw [if_neg heof] at he
            have hstep : (stepOp st Op.read).endFired = false := by
              show (trackerRead st).2.endFired = false
              rw [(trackerRead_spec st).2, if_neg heof, bodyRead_endFired]
              exact hf
            show (List.foldl stepOp (stepOp st Op.read) rest).endFired = false
            exact ih hstep (fun hmem => hc (List.mem_cons_of_mem _ hmem)) he
      | close =>
          exact absurd (List.mem_cons_self _ _) hc

/-- Concrete sample request used by concrete evaluations. -/
def req0 : Request :=
  { method := "GET", url := "http://example.com/items" }

/-- A concrete response body: five bytes, then end-of-stream. -/
def bs0 : BodySpec :=
  { objId := 1, isWriter := false,
    script := [(5, none), (0, some ReadErr.eof)], closeErr := none }

/-- Claim C1 counterexample: an outbound call succeeds with a (non-nil)
body; the caller performs the operation sequence `[Read]` (one successful
read that does not reach end-of-stream) and abandons the body.  The
duration recorder has then received zero samples, contradicting the claim
that it receives exactly one sample over any sequence of Read and Close
operations. -/
theorem c1_counterexample_zero_samples :
    countRecords (runOps (roundTrip req0 (BaseResult.success
      { statusCode := 200, body := some bs0 })).state [Op.read]).events = 0 := by
  rfl

/-- Claim C1 (amended): over any sequence of Read and Close operations on
the body returned by `RoundTrip`, the duration recorder receives at most
one sample; it receives exactly one whenever the sequence contains a Close
or some Read in the sequence returns the end-of-stream signal (in
particular when the body is read to end-of-stream and then explicitly
closed); when `RoundTrip` itself already finalized (error or nil-body path,
i.e. no wrapped body was handed out), the count is exactly one for every
sequence; when a wrapped body was handed out and the sequence neither
closes it nor ever reads end-of-stream, the recorder receives zero samples;
and finalization (`tracker.end`) is idempotent, so repeated invocations
record only one sample. -/
theorem c1_one_shot_duration_sample (req : Request) (base : BaseResult) (ops : List Op) :
    countRecords (runOps (roundTrip req base).state ops).events ≤ 1 ∧
    (Op.close ∈ ops →
      countRecords (runOps (roundTrip req base).state ops).events = 1) ∧
    (readHitsEOF (roundTrip req base).state ops = true →
      countRecords (runOps (roundTrip req base).state ops).events = 1) ∧
    ((roundTrip req base).wrapped = none →
      countRecords (runOps (roundTrip req base).state ops).events = 1) ∧
    ((roundTrip req base).wrapped ≠ none → Op.close ∉ ops →
      readHitsEOF (roundTrip req base).state ops = false →
      countRecords (runOps (roundTrip req base).state ops).events = 0) ∧
    trackerEnd (trackerEnd (runOps (roundTrip req base).state ops))
      = trackerEnd (runOps (roundTrip req base).state ops) := by
  have hinv : trackerInv (runOps (roundTrip req base).state ops) :=
    runOps_inv ops (roundTrip_state_inv req base)
  unfold trackerInv at hinv
  refine ⟨?_, ?_, ?_, ?_, ?_, trackerEnd_idem _⟩
  · rw [hinv]
    cases (runOps (roundTrip req base).state ops).endFired <;> simp
  · intro hc
    rw [hinv, runOps_close_endFired hc]
    simp
  · intro he
    rw [hinv, readHitsEOF_endFired he]
    simp
  · intro hw
    rw [hinv, runOps_endFired_mono ops (roundTrip_wrapped_none_endFired req base hw)]
    simp
  · intro hw hc he
    rw [hinv, no_close_no_eof_endFired
      (roundTrip_wrapped_some_endFired req base hw) hc he]
    simp

/-- Claim C1 witness: concrete instantiation at a successful call whose
body is read once and then closed. -/
theorem c1_one_shot_duration_sample_witness :
    countRecords (runOps (roundTrip req0 (BaseResult.success
      { statusCode := 200, body := some bs0 })).state [Op.read, Op.close]).events ≤ 1 ∧
    (Op.close ∈ [Op.read, Op.close] →
      countRecords (runOps (roundTrip req0 (BaseResult.success
        { statusCode := 200, body := some bs0 })).state [Op.read, Op.close]).events = 1) ∧
    (readHitsEOF (roundTrip req0 (BaseResult.success
        { statusCode := 200, body := some bs0 })).state [Op.read, Op.close] = true →
      countRecords (runOps (roundTrip req0 (BaseResult.success
        { statusCode := 200, body := some bs0 })).state [Op.read, Op.close]).events = 1) ∧
    ((roundTrip req0 (BaseResult.success
        { statusCode := 200, body := some bs0 })).wrapped = none →
      countRecords (runOps (roundTrip req0 (BaseResult.success
        { statusCode := 200, body := some bs0 })).state [Op.read, Op.close]).events = 1) ∧
    ((roundTrip req0 (BaseResult.success
        { statusCode := 200, body := some bs0 })).wrapped ≠ none →
      Op.close ∉ [Op.read, Op.close] →
      readHitsEOF (roundTrip req0 (BaseResult.success
        { statusCode := 200, body := some bs0 })).state [Op.read, Op.close] = false →
      countRecords (runOps (roundTrip req0 (BaseResult.success
        { statusCode := 200, body := some bs0 })).state [Op.read, Op.close]).events = 0) ∧
    trackerEnd (trackerEnd (runOps (roundTrip req0 (BaseResult.success
        { statusCode := 200, body := some bs0 })).state [Op.read, Op.close]))
      = trackerEnd (runOps (roundTrip req0 (BaseResult.success
        { statusCode := 200, body := some bs0 })).state [Op.read, Op.close]) :=
  c1_one_shot_duration_sample req0
    (BaseResult.success { statusCode := 200, body := some bs0 }) [Op.read, Op.close]

/-- Claim C2: when the base transport fails, `RoundTrip` returns the exact
error unchanged (with no response), and before returning it has
synchronously recorded exactly one duration sample whose labels are the
client request attributes plus the HTTP attributes derived from status
code 500 (internal server error). -/
theorem c2_error_passthrough_sync_finalize (req : Request) (e : GoError) :
    (roundTrip req (BaseResult.failure e)).err = some e ∧
    (roundTrip req (BaseResult.failure e)).respStatus = none ∧
    (roundTrip req (BaseResult.failure e)).state.labels
      = HTTPClientAttributesFromHTTPRequest req
        ++ HTTPAttributesFromHTTPStatusCode 500 ∧
    (roundTrip req (BaseResult.failure e)).state.events
      = [Event.record (HTTPClientAttributesFromHTTPRequest req
          ++ HTTPAttributesFromHTTPStatusCode 500)] ∧
    (roundTrip req (BaseResult.failure e)).state.endFired = true :=
  ⟨rfl, rfl, rfl, rfl, rfl⟩

/-- Claim C3: `tracker.Read` returns exactly the byte count and error of
the underlying body's `Read`, and the tracker state is finalized (via
`trackerEnd`) precisely when that error is the end-of-stream signal
`io.EOF`; any other outcome leaves the tracker unfinalized. -/
theorem c3_read_passthrough_finalize_iff_eof (st : CallState) :
    (trackerRead st).1 = (bodyRead st).1 ∧
    (trackerRead st).2 =
      (if (bodyRead st).1.2 = some ReadErr.eof then trackerEnd (bodyRead st).2
       else (bodyRead st).2) :=
  trackerRead_spec st

/-- Claim C4: `tracker.Close` finalizes first and then delegates the close:
its return value is exactly the underlying body's `Close` result, its event
log is the finalized log followed by the delegated `Close`, and every
`Close` call delegates to the underlying body exactly once more — also when
finalization had already happened earlier. -/
theorem c4_close_finalize_then_delegate (st : CallState) :
    (trackerClose st).1 = st.closeErr ∧
    (trackerClose st).2.events = (trackerEnd st).events ++ [Event.bodyClose] ∧
    countBodyCloses (trackerClose st).2.events = countBodyCloses st.events + 1 := by
  refine ⟨rfl, rfl, ?_⟩
  unfold trackerClose trackerEnd countBodyCloses
  cases hf : st.endFired <;>
    simp [hf, List.filter_append, Event.isBodyClose]

/-- Claim C5: when the base transport succeeds and the response has no
body, `RoundTrip` finalizes synchronously before returning: it returns no
error, hands out no wrapped body, and the recorder has exactly one sample
labelled with the client attributes plus the HTTP attributes derived from
the response's actual status code. -/
theorem c5_nil_body_sync_finalize (req : Request) (status : Nat) :
    (roundTrip req (BaseResult.success { statusCode := status, body := none })).err
      = none ∧
    (roundTrip req (BaseResult.success { statusCode := status, body := none })).respStatus
      = some status ∧
    (roundTrip req (BaseResult.success { statusCode := status, body := none })).wrapped
      = none ∧
    (roundTrip req (BaseResult.success { statusCode := status, body := none })).state.events
      = [Event.record (HTTPClientAttributesFromHTTPRequest req
          ++ HTTPAttributesFromHTTPStatusCode status)] ∧
    (roundTrip req (BaseResult.success
      { statusCode := status, body := none })).state.endFired = true :=
  ⟨rfl, rfl, rfl, rfl, rfl⟩

/-- Claim C6: wrappedBodyIO preserves exactly the original body's writer
capability: given a wrapper with no `Write` method (the tracker), the result
supports `io.Writer` iff the original body did, and it is the composed
`{wrapper, body}` struct when the body is a writer and the plain wrapper
otherwise. -/
theorem c6_wrapping_preserves_writer_capability (wrapper body : RCVal)
    (h : wrapper.isWriter = false) :
    ( wrappedBodyIO wrapper body).supportsWriter = body.isWriter ∧
    ( wrappedBodyIO wrapper body) =
      (if body.isWriter then WrappedBody.composed wrapper body
       else WrappedBody.plain wrapper) := by
  unfold wrappedBodyIO
  cases hb : body.isWriter <;> simp [hb, h, WrappedBody.supportsWriter]

/-- Claim C6 witness: concrete instantiation at the tracker and a
writer-capable body. -/
theorem c6_wrapping_preserves_writer_capability_witness :
    ( wrappedBodyIO trackerRC { objId := 7, isWriter := true }).supportsWriter
      = ({ objId := 7, isWriter := true } : RCVal).isWriter ∧
    ( wrappedBodyIO trackerRC { objId := 7, isWriter := true }) =
      (if ({ objId := 7, isWriter := true } : RCVal).isWriter
       then WrappedBody.composed trackerRC { objId := 7, isWriter := true }
       else WrappedBody.plain trackerRC) :=
  c6_wrapping_preserves_writer_capability trackerRC
    { objId := 7, isWriter := true } rfl

/-- Claim C10: when the original body is a writer, a `Write` on the wrapped
body is forwarded directly to the original body's `Writer` (returning its
byte count) and bypasses the tracker entirely: the one-shot guard, the
labels, the remaining read script and the event log (hence the number of
recorded duration samples) are all unchanged. -/
theorem c10_write_bypasses_tracker (body : RCVal) (st : CallState) (n : Nat)
    (h : body.isWriter = true) :
    wrappedWrite ( wrappedBodyIO trackerRC body) st n
      = some ({ st with written := st.written ++ [n] }, n) ∧
    ({ st with written := st.written ++ [n] } : CallState).endFired = st.endFired ∧
    ({ st with written := st.written ++ [n] } : CallState).labels = st.labels ∧
    ({ st with written := st.written ++ [n] } : CallState).script = st.script ∧
    ({ st with written := st.written ++ [n] } : CallState).events = st.events ∧
    countRecords ({ st with written := st.written ++ [n] } : CallState).events
      = countRecords st.events := by
  refine ⟨?_, rfl, rfl, rfl, rfl, rfl⟩
  simp [ wrappedBodyIO, h, wrappedWrite]

/-- Claim C10 witness: concrete instantiation at a writer-capable body and
the fresh tracker state. -/
theorem c10_write_bypasses_tracker_witness :
    wrappedWrite ( wrappedBodyIO trackerRC { objId := 7, isWriter := true })
        initTracker 3
      = some ({ initTracker with written := initTracker.written ++ [3] }, 3) ∧
    ({ initTracker with written := initTracker.written ++ [3] } : CallState).endFired
      = initTracker.endFired ∧
    ({ initTracker with written := initTracker.written ++ [3] } : CallState).labels
      = initTracker.labels ∧
    ({ initTracker with written := initTracker.written ++ [3] } : CallState).script
      = initTracker.script ∧
    ({ initTracker with written := initTracker.written ++ [3] } : CallState).events
      = initTracker.events ∧
    countRecords ({ initTracker with
        written := initTracker.written ++ [3] } : CallState).events
      = countRecords initTracker.events :=
  c10_write_bypasses_tracker { objId := 7, isWriter := true } initTracker 3 rfl

/-! ## The go-restful span filter (`restful.go`) -/

/-- An external tracer instance.  A tracer obtained from a provider is
identified by the provider plus the instrumentation name/version the code
passes to `Tracer(...)`; a user-supplied tracer is any such value. -/
structure Tracer where
  provider : Nat
  name : String
  version : String
deriving DecidableEq, Repr

/-- The process-wide global registry (`otelglobal`) at some instant. -/
structure Globals where
  traceProvider : Nat
  propagators : Nat
deriving DecidableEq, Repr

def tracerName : String :=
  "go.opentelemetry.io/contrib/instrumentation/github.com/emicklei/go-restful"

def tracerVersion : String := "1.0"

/-- `provider.Tracer(name, WithInstrumentationVersion(version))`. -/
def providerTracer (provider : Nat) (name version : String) : Tracer :=
  { provider := provider, name := name, version := version }

/-- The filter's `Config`: unset fields are `none` (Go `nil`). -/
structure Config where
  tracer : Option Tracer
  propagators : Option Nat

/-- `opt(&cfg)` for each option in order, starting from the zero `Config`. -/
def applyOpts (opts : List (Config → Config)) : Config :=
  opts.foldl (fun c o => o c) { tracer := none, propagators := none }

/-- The value returned by `OTelFilter`: a closure capturing the service
name and the collaborators resolved at construction time. -/
structure RestfulFilter where
  service : String
  tracer : Tracer
  propagators : Nat
deriving DecidableEq, Repr

/-- `OTelFilter`: apply the options, resolve `nil` fields from the global
registry (as it is at construction time), and return the filter closure. -/
def OTelFilter (g : Globals) (service : String)
    (opts : List (Config → Config)) : RestfulFilter :=
  let cfg := applyOpts opts
  let tr := match cfg.tracer with
    | none => providerTracer g.traceProvider tracerName tracerVersion
    | some t => t
  let pr := match cfg.propagators with
    | none => g.propagators
    | some p => p
  { service := service, tracer := tr, propagators := pr }

/-- The span status classification `standard.SpanStatusFromHTTPStatusCode`
returns; external, so modelled as a tag remembering its input. -/
inductive SpanCode where
  | fromHTTPStatus (code : Nat)
deriving DecidableEq, Repr

inductive SpanMsg where
  | fromHTTPStatus (code : Nat)
deriving DecidableEq, Repr

def SpanStatusFromHTTPStatusCode (code : Nat) : SpanCode × SpanMsg :=
  (SpanCode.fromHTTPStatus code, SpanMsg.fromHTTPStatus code)

/-- `standard.NetAttributesFromHTTPRequest`, modelled symbolically. -/
def NetAttributesFromHTTPRequest (transport : String) (req : Request) : List Label :=
  [Label.netAttrs transport req]

/-- `standard.EndUserAttributesFromHTTPRequest`, modelled symbolically. -/
def EndUserAttributesFromHTTPRequest (req : Request) : List Label :=
  [Label.endUserAttrs req]

/-- `standard.HTTPServerAttributesFromHTTPRequest`, modelled symbolically. -/
def HTTPServerAttributesFromHTTPRequest (service route : String)
    (req : Request) : List Label :=
  [Label.serverAttrs service route req]

/-- Observable calls the filter makes on its collaborators, in order. -/
inductive FEvent where
  | extract (propagators : Nat)
  | spanStart (tracer : Tracer) (name : String) (attrs : List Label)
  | chainCall
  | setAttributes (attrs : List Label)
  | setStatus (code : SpanCode) (msg : SpanMsg)
  | spanEnd
deriving DecidableEq, Repr

/-- Behavior of the downstream chain (`chain.ProcessFilter`): it either
returns normally, having written the response status any number of times,
or panics with some value.  go-restful's response reports status 200
when the chain never wrote one. -/
inductive ChainOutcome where
  | normal (statusWrites : List Nat)
  | panics (v : Nat)
deriving DecidableEq, Repr

/-- The response's final status code after the chain returns: the last
write, or the default 200. -/
def finalStatus (writes : List Nat) : Nat :=
  writes.foldl (fun _ w => w) 200

/-- Result of running the filter on one request: the ordered log of
collaborator calls, and the propagated panic value when the chain
panicked. -/
structure FilterRunResult where
  events : List FEvent
  panicked : Option Nat
deriving DecidableEq, Repr

/-- The start options' attribute bundles, in the order the code lists them. -/
def startAttrs (service route : String) (req : Request) : List Label :=
  NetAttributesFromHTTPRequest "tcp" req
    ++ EndUserAttributesFromHTTPRequest req
    ++ HTTPServerAttributesFromHTTPRequest service route req

/-- One run of the filter closure returned by `OTelFilter`: extract the
parent context with the captured propagators, start a span named after the
selected route with the captured tracer (with `defer span.End()`), invoke
the chain, and — on normal return only — set the status-derived attributes
and span status before the deferred `End` runs.  On a panic the deferred
`End` still runs and the panic propagates.  `gNow` is the global registry
at call time; the closure never consults it. -/
def runFilter (f : RestfulFilter) (gNow : Globals) (req : Request)
    (route : String) (chain : ChainOutcome) : FilterRunResult :=
  let pre := [FEvent.extract f.propagators,
              FEvent.spanStart f.tracer route (startAttrs f.service route req),
              FEvent.chainCall]
  match chain with
  | ChainOutcome.panics v =>
      { events := pre ++ [FEvent.spanEnd], panicked := some v }
  | ChainOutcome.normal writes =>
      let status := finalStatus writes
      let s := SpanStatusFromHTTPStatusCode status
      { events := pre ++ [FEvent.setAttributes (HTTPAttributesFromHTTPStatusCode status),
                          FEvent.setStatus s.1 s.2,
                          FEvent.spanEnd],
        panicked := none }

def FEvent.isSpanStart : FEvent → Bool
  | FEvent.spanStart _ _ _ => true
  | _ => false

def FEvent.isSpanEnd : FEvent → Bool
  | FEvent.spanEnd => true
  | _ => false

def countSpanStarts (evs : List FEvent) : Nat :=
  (evs.filter FEvent.isSpanStart).length

def countSpanEnds (evs : List FEvent) : Nat :=
  (evs.filter FEvent.isSpanEnd).length

/-- Claim C7: on every request the filter starts a span exactly once,
before invoking the downstream chain, and ends it exactly once after
control returns — whether the chain returns normally (with any number of
status writes) or panics. -/
theorem c7_span_start_end_exactly_once (f : RestfulFilter) (g : Globals)
    (req : Request) (route : String) (chain : ChainOutcome) :
    countSpanStarts (runFilter f g req route chain).events = 1 ∧
    countSpanEnds (runFilter f g req route chain).events = 1 ∧
    ∃ mid, (runFilter f g req route chain).events
        = [FEvent.extract f.propagators,
           FEvent.spanStart f.tracer route (startAttrs f.service route req),
           FEvent.chainCall] ++ mid ++ [FEvent.spanEnd] ∧
      countSpanStarts mid = 0 ∧ countSpanEnds mid = 0 := by
  rcases chain with writes | v
  · refine ⟨?_, ?_,
      ⟨[FEvent.setAttributes (HTTPAttributesFromHTTPStatusCode (finalStatus writes)),
        FEvent.setStatus (SpanCode.fromHTTPStatus (finalStatus writes))
          (SpanMsg.fromHTTPStatus (finalStatus writes))], ?_, ?_, ?_⟩⟩ <;>
      simp [runFilter, countSpanStarts, countSpanEnds, FEvent.isSpanStart,
        FEvent.isSpanEnd, SpanStatusFromHTTPStatusCode]
  · refine ⟨?_, ?_, ⟨[], ?_, ?_, ?_⟩⟩ <;>
      simp [runFilter, countSpanStarts, countSpanEnds, FEvent.isSpanStart,
        FEvent.isSpanEnd]

/-- Claim C8: when the chain returns normally, the span is named after the
selected route, and after the chain call the filter attaches the HTTP
attributes computed from the final response status code and the status
classification (code and message) derived from that same code, both before
the span ends; the filter itself raises nothing. -/
theorem c8_status_attributes_on_normal_return (f : RestfulFilter) (g : Globals)
    (req : Request) (route : String) (writes : List Nat) :
    (runFilter f g req route (ChainOutcome.normal writes)).events
      = [FEvent.extract f.propagators,
         FEvent.spanStart f.tracer route (startAttrs f.service route req),
         FEvent.chainCall,
         FEvent.setAttributes (HTTPAttributesFromHTTPStatusCode (finalStatus writes)),
         FEvent.setStatus (SpanCode.fromHTTPStatus (finalStatus writes))
           (SpanMsg.fromHTTPStatus (finalStatus writes)),
         FEvent.spanEnd] ∧
    (runFilter f g req route (ChainOutcome.normal writes)).panicked = none :=
  ⟨rfl, rfl⟩

/-- Claim C9: `OTelFilter` resolves unset configuration fields (tracer,
propagators) from the process-wide registry once, at construction time —
the returned filter carries the user-supplied value when one was set and
the construction-time global default otherwise — and every later run of
the filter is independent of the registry's state at call time. -/
theorem c9_config_resolved_at_construction (g g1 g2 : Globals) (service : String)
    (opts : List (Config → Config)) (req : Request) (route : String)
    (chain : ChainOutcome) :
    (OTelFilter g service opts).service = service ∧
    (OTelFilter g service opts).tracer
      = ((applyOpts opts).tracer).getD
          (providerTracer g.traceProvider tracerName tracerVersion) ∧
    (OTelFilter g service opts).propagators
      = ((applyOpts opts).propagators).getD g.propagators ∧
    runFilter (OTelFilter g service opts) g1 req route chain
      = runFilter (OTelFilter g service opts) g2 req route chain := by
  refine ⟨rfl, ?_, ?_, rfl⟩
  · unfold OTelFilter
    cases h : (applyOpts opts).tracer <;> simp [h]
  · unfold OTelFilter
    cases h : (applyOpts opts).propagators <;> simp [h]

end OtelContrib
